import Mathlib

/-!
Shallow embedding of the NeuroVas healing feedback loop (src/app.py):
signal-quality validation, RPI scoring, the prediction wrapper around the
external stage classifier, and the session state machine driven by the
discrete UI events (submit initial sample, feedback timer completion,
submit updated sample, start new session).

The external classifier is modelled as an oracle `predict` taking the
feature row (a partial map from column name to value) to an integer stage.
HRV values are floats in the source used only in comparisons and stored
unchanged, so they are embedded as rationals.
-/

/-- Embeds `check_signal_quality` (src/app.py lines 21-29): range check on
hrv, then category checks on emg level and posture, returning the first
failing check's message, or the good marker. -/
def check_signal_quality (hrv : ℚ) (emg_level posture : String) : String :=
  if hrv < 20 ∨ hrv > 120 then "❌ Poor HRV Signal"
  else if ¬ (emg_level ∈ (["normal", "overactive", "underactive"] : List String)) then
    "❌ Unrecognized EMG Input"
  else if ¬ (posture ∈ (["aligned", "lean_left", "lean_right", "slouched"] : List String)) then
    "❌ Posture Not Valid"
  else "✅ Good"

/-- Embeds `calculate_rpi` (src/app.py lines 31-39): base `stage * 33`,
plus 10 if hrv is below 50, plus 5 for overactive emg or 3 for underactive,
capped at 100. -/
def calculate_rpi (stage : Int) (hrv : ℚ) (emg_level : String) : Int :=
  let score := stage * 33
  let score := if hrv < 50 then score + 10 else score
  let score :=
    if emg_level = "overactive" then score + 5
    else if emg_level = "underactive" then score + 3
    else score
  min score 100

/-- Embeds `run_prediction` (src/app.py lines 49-59): build a feature row
with every known column zeroed, set the hrv entry (adding the key if
absent), set the one-hot emg and posture indicators only when the derived
column name is already a key of the row, ask the external model for the
stage, and score the RPI from that stage and the raw inputs. -/
def run_prediction (X_columns : List String) (predict : (String → Option ℚ) → Int)
    (hrv : ℚ) (emg_level posture : String) : Int × Int :=
  let row0 : String → Option ℚ := fun c => if c ∈ X_columns then some 0 else none
  let row1 : String → Option ℚ := fun c => if c = "hrv" then some hrv else row0 c
  let emg_col := "emg_level_" ++ emg_level
  let posture_col := "posture_" ++ posture
  let row2 : String → Option ℚ :=
    if (row1 emg_col).isSome then fun c => if c = emg_col then some 1 else row1 c else row1
  let row3 : String → Option ℚ :=
    if (row2 posture_col).isSome then fun c => if c = posture_col then some 1 else row2 c
    else row2
  let stage := predict row3
  (stage, calculate_rpi stage hrv emg_level)

/-- One record appended by `log_summary` (src/app.py lines 61-69). -/
structure LogEntry where
  loop : Nat
  stage_before : Int
  rpi_before : Int
  stage_after : Int
  rpi_after : Int
  status : String
deriving DecidableEq, Repr

/-- The session state (src/app.py lines 11-18): loop counter, stored
before-metrics, the three phase flags, and the append-only log. -/
structure AppState where
  loop : Nat
  stage_before : Option Int
  rpi_before : Option Int
  feedback_active : Bool
  show_updated_input : Bool
  improving : Bool
  log : List LogEntry
deriving DecidableEq, Repr

/-- The freshly initialized session state (src/app.py lines 11-18). -/
def initState : AppState :=
  { loop := 1
    stage_before := none
    rpi_before := none
    feedback_active := false
    show_updated_input := false
    improving := false
    log := [] }

/-- The comparison branch of the updated-signal handler (src/app.py lines
151-160): improved if either metric strictly dropped, no-change if both are
exactly equal, worsened otherwise; the improvement test runs first. -/
def classify_status (stage_before rpi_before stage_after rpi_after : Int) : String :=
  if rpi_after < rpi_before ∨ stage_after < stage_before then "Improved ✅"
  else if rpi_after = rpi_before ∧ stage_after = stage_before then "No Change ⚪"
  else "Worsened ❌"

/-- The discrete UI events driving the session: the two submit buttons, the
feedback timer running out, and the start-new-session button. -/
inductive Event where
  | submitInitial (hrv : ℚ) (emg_level posture : String)
  | feedbackComplete
  | submitUpdated (hrv : ℚ) (emg_level posture : String)
  | newSession
deriving DecidableEq

/-- One step of the session state machine, an event handled exactly as the
script's guarded sections do (src/app.py lines 75-175). An event whose
section guard is false leaves the state unchanged.

* `submitInitial` (lines 75-109): only when neither feedback nor updated
  input is active; validates the sample, and on success stores the
  assessment as the before-metrics, then either stays put (healthy exit:
  stage 0 and rpi below 35) or activates feedback.
* `feedbackComplete` (lines 112-122): ends the timer phase and enables the
  updated-signal input.
* `submitUpdated` (lines 125-168): whenever the updated-input section is
  shown (the source never rechecks signal quality here); predicts, appends
  the comparison entry, sets the improving flag on improvement, and only
  when the improving flag is still unset rolls the metrics forward,
  increments the loop counter and re-enters feedback.
* `newSession` (lines 171-175): offered while improving; clears every
  session key, which re-runs the initializer. -/
def step (X_columns : List String) (predict : (String → Option ℚ) → Int)
    (s : AppState) : Event → AppState
  | Event.submitInitial hrv emg_level posture =>
    if s.feedback_active = false ∧ s.show_updated_input = false then
      if check_signal_quality hrv emg_level posture = "✅ Good" then
        let p := run_prediction X_columns predict hrv emg_level posture
        let s1 := { s with stage_before := some p.1, rpi_before := some p.2 }
        if p.1 = 0 ∧ p.2 < 35 then s1
        else { s1 with feedback_active := true }
      else s
    else s
  | Event.feedbackComplete =>
    if s.feedback_active = true then
      { s with feedback_active := false, show_updated_input := true }
    else s
  | Event.submitUpdated hrv emg_level posture =>
    if s.show_updated_input = true then
      let p := run_prediction X_columns predict hrv emg_level posture
      let sb := s.stage_before.getD 0
      let rb := s.rpi_before.getD 0
      let improving1 := if p.2 < rb ∨ p.1 < sb then true else s.improving
      let s1 :=
        { s with improving := improving1
                 log := s.log ++ [⟨s.loop, sb, rb, p.1, p.2, classify_status sb rb p.1 p.2⟩] }
      if s1.improving = false then
        { s1 with rpi_before := some p.2
                  stage_before := some p.1
                  loop := s1.loop + 1
                  show_updated_input := false
                  feedback_active := true }
      else s1
    else s
  | Event.newSession =>
    if s.improving = true then initState else s

/-- Run the state machine from a fresh session over a list of events. -/
def run (X_columns : List String) (predict : (String → Option ℚ) → Int)
    (evs : List Event) : AppState :=
  evs.foldl (step X_columns predict) initState

/-- Modelled from the spec: the order-independence property of §8 compares
the scorer against the same additive score with the EMG bonus applied
before the HRV bonus. -/
def calculate_rpi_emg_first (stage : Int) (hrv : ℚ) (emg_level : String) : Int :=
  let score := stage * 33
  let score :=
    if emg_level = "overactive" then score + 5
    else if emg_level = "underactive" then score + 3
    else score
  let score := if hrv < 50 then score + 10 else score
  min score 100

/-- A concrete column list for the classifier boundary, used by concrete
evaluations. -/
def cols0 : List String :=
  ["hrv", "emg_level_normal", "emg_level_overactive", "emg_level_underactive",
   "posture_aligned", "posture_lean_left", "posture_lean_right", "posture_slouched"]

/-- A concrete classifier oracle that always predicts stage 2. -/
def predict0 : (String → Option ℚ) → Int := fun _ => 2

/-- Events reaching the updated-input phase: a valid unhealthy initial
sample (stage 2, rpi 71), then the feedback timer completes. -/
def traceToUpdated : List Event :=
  [Event.submitInitial 80 "overactive" "aligned", Event.feedbackComplete]

/-- The previous trace continued by an improving updated sample (rpi 66
against 71) and then a worsening one (rpi 81 against the unchanged 71). -/
def traceImprovedThenWorse : List Event :=
  traceToUpdated ++
    [Event.submitUpdated 80 "normal" "aligned", Event.submitUpdated 40 "overactive" "aligned"]

/-- C3: for every stage, hrv and emg level, the computed RPI equals
`min (stage*33 + (10 if hrv < 50) + (5 if overactive else 3 if underactive
else 0)) 100`; there is no lower clamp in the formula, and stage 0 with
hrv at least 50 and normal emg yields exactly 0. -/
theorem calculate_rpi_closed_form (stage : Int) (hrv : ℚ) (emg_level : String) :
    calculate_rpi stage hrv emg_level =
      min (stage * 33 + (if hrv < 50 then 10 else 0) +
        (if emg_level = "overactive" then 5
         else if emg_level = "underactive" then 3 else 0)) 100
    ∧ (50 ≤ hrv → calculate_rpi 0 hrv "normal" = 0) := by
  constructor
  · simp only [calculate_rpi]
    split_ifs <;> omega
  · intro h
    simp only [calculate_rpi]
    rw [if_neg (not_lt.mpr h)]
    decide

theorem calculate_rpi_closed_form_witness :
    (50 : ℚ) ≤ 80 ∧ calculate_rpi 0 80 "normal" = 0 :=
  ⟨by norm_num, (calculate_rpi_closed_form 0 80 "normal").2 (by norm_num)⟩

/-- C7: for every stage between 0 and 3 and any raw inputs, the RPI lies
in [0,100], and the score does not depend on whether the hrv bonus or the
emg bonus is added first (the scorer is a pure function, so determinism is
immediate). -/
theorem calculate_rpi_bounds_and_order (stage : Int) (hrv : ℚ) (emg_level : String)
    (h0 : 0 ≤ stage) (h3 : stage ≤ 3) :
    0 ≤ calculate_rpi stage hrv emg_level ∧ calculate_rpi stage hrv emg_level ≤ 100 ∧
      calculate_rpi stage hrv emg_level = calculate_rpi_emg_first stage hrv emg_level := by
  simp only [calculate_rpi, calculate_rpi_emg_first]
  refine ⟨?_, ?_, ?_⟩ <;> split_ifs <;> omega

theorem calculate_rpi_bounds_and_order_witness :
    (0 : Int) ≤ 2 ∧ (2 : Int) ≤ 3 ∧
      (0 ≤ calculate_rpi 2 40 "overactive" ∧ calculate_rpi 2 40 "overactive" ≤ 100 ∧
        calculate_rpi 2 40 "overactive" = calculate_rpi_emg_first 2 40 "overactive") :=
  ⟨by decide, by decide, calculate_rpi_bounds_and_order 2 40 "overactive" (by decide) (by decide)⟩

/-- C1: the updated-input comparison is classified Improved exactly when
the rpi or the stage strictly dropped, No Change exactly when both are
exactly equal, and Worsened otherwise; because the improvement test runs
first, a pair where one metric improves and the other worsens is always
classified Improved. -/
theorem classify_status_spec (sb rb sa ra : Int) :
    (classify_status sb rb sa ra = "Improved ✅" ↔ ra < rb ∨ sa < sb) ∧
    (classify_status sb rb sa ra = "No Change ⚪" ↔ ra = rb ∧ sa = sb) ∧
    (classify_status sb rb sa ra = "Worsened ❌" ↔
      ¬(ra < rb ∨ sa < sb) ∧ ¬(ra = rb ∧ sa = sb)) ∧
    (ra < rb → sb < sa → classify_status sb rb sa ra = "Improved ✅") ∧
    (sa < sb → rb < ra → classify_status sb rb sa ra = "Improved ✅") := by
  simp only [classify_status]
  split_ifs with h1 h2
  · refine ⟨by simp [h1], ⟨fun he => absurd he (by decide), fun hc => absurd h1 (by omega)⟩,
      ⟨fun he => absurd he (by decide), fun hc => absurd h1 hc.1⟩,
      fun _ _ => rfl, fun _ _ => rfl⟩
  · refine ⟨⟨fun he => absurd he (by decide), fun hc => absurd hc h1⟩,
      ⟨fun _ => h2, fun _ => rfl⟩,
      ⟨fun he => absurd he (by decide), fun hc => absurd h2 hc.2⟩,
      fun ha _ => absurd (Or.inl ha) h1, fun ha _ => absurd (Or.inr ha) h1⟩
  · exact ⟨⟨fun he => absurd he (by decide), fun hc => absurd hc h1⟩,
      ⟨fun he => absurd he (by decide), fun hc => absurd hc h2⟩,
      ⟨fun _ => ⟨h1, h2⟩, fun _ => rfl⟩,
      fun ha _ => absurd (Or.inl ha) h1, fun ha _ => absurd (Or.inr ha) h1⟩

theorem classify_status_spec_witness :
    ((40 : Int) < 50 ∧ (1 : Int) < 2) ∧ classify_status 1 50 2 40 = "Improved ✅" :=
  ⟨by decide, (classify_status_spec 1 50 2 40).2.2.2.1 (by decide) (by decide)⟩

/-- C4: validation succeeds exactly when hrv lies in [20,120] and the emg
level and posture are recognized categories; on an invalid sample, the
reported error is the first violated check in the fixed order hrv, then
emg, then posture. -/
theorem check_signal_quality_spec (hrv : ℚ) (emg_level posture : String) :
    (check_signal_quality hrv emg_level posture = "✅ Good" ↔
      (20 ≤ hrv ∧ hrv ≤ 120 ∧
        emg_level ∈ (["normal", "overactive", "underactive"] : List String) ∧
        posture ∈ (["aligned", "lean_left", "lean_right", "slouched"] : List String))) ∧
    ((hrv < 20 ∨ 120 < hrv) →
      check_signal_quality hrv emg_level posture = "❌ Poor HRV Signal") ∧
    ((20 ≤ hrv ∧ hrv ≤ 120 ∧
        emg_level ∉ (["normal", "overactive", "underactive"] : List String)) →
      check_signal_quality hrv emg_level posture = "❌ Unrecognized EMG Input") ∧
    ((20 ≤ hrv ∧ hrv ≤ 120 ∧
        emg_level ∈ (["normal", "overactive", "underactive"] : List String) ∧
        posture ∉ (["aligned", "lean_left", "lean_right", "slouched"] : List String)) →
      check_signal_quality hrv emg_level posture = "❌ Posture Not Valid") := by
  by_cases hH : hrv < 20 ∨ hrv > 120
  · have hF : ¬(20 ≤ hrv ∧ hrv ≤ 120) := by
      rcases hH with h | h
      · exact fun hc => absurd hc.1 (not_le.mpr h)
      · exact fun hc => absurd hc.2 (not_le.mpr h)
    simp only [check_signal_quality]
    rw [if_pos hH]
    exact ⟨⟨fun he => absurd he (by decide), fun hc => absurd ⟨hc.1, hc.2.1⟩ hF⟩,
      fun _ => rfl,
      fun hc => absurd ⟨hc.1, hc.2.1⟩ hF,
      fun hc => absurd ⟨hc.1, hc.2.1⟩ hF⟩
  · have hr : 20 ≤ hrv ∧ hrv ≤ 120 := by push_neg at hH; exact ⟨hH.1, hH.2⟩
    by_cases hE : emg_level ∈ (["normal", "overactive", "underactive"] : List String)
    · by_cases hP : posture ∈ (["aligned", "lean_left", "lean_right", "slouched"] : List String)
      · simp only [check_signal_quality]
        rw [if_neg hH, if_neg (not_not.mpr hE), if_neg (not_not.mpr hP)]
        exact ⟨⟨fun _ => ⟨hr.1, hr.2, hE, hP⟩, fun _ => rfl⟩,
          fun hc => absurd hc hH,
          fun hc => absurd hE hc.2.2,
          fun hc => absurd hP hc.2.2.2⟩
      · simp only [check_signal_quality]
        rw [if_neg hH, if_neg (not_not.mpr hE), if_pos hP]
        exact ⟨⟨fun he => absurd he (by decide), fun hc => absurd hc.2.2.2 hP⟩,
          fun hc => absurd hc hH,
          fun hc => absurd hE hc.2.2,
          fun _ => rfl⟩
    · simp only [check_signal_quality]
      rw [if_neg hH, if_pos hE]
      exact ⟨⟨fun he => absurd he (by decide), fun hc => absurd hc.2.2.1 hE⟩,
        fun hc => absurd hc hH,
        fun _ => rfl,
        fun hc => absurd hc.2.2.1 hE⟩

theorem check_signal_quality_spec_witness :
    ((150 : ℚ) < 20 ∨ (120 : ℚ) < 150) ∧
      check_signal_quality 150 "normal" "aligned" = "❌ Poor HRV Signal" :=
  ⟨by norm_num, (check_signal_quality_spec 150 "normal" "aligned").2.1 (by norm_num)⟩

/-- C10: for a fixed classifier output, the computed RPI does not depend on
posture: whenever two runs of `run_prediction` that differ only in the
posture input produce the same stage, they produce the same RPI, for every
classifier oracle. Posture reaches the outcome only through the external
classifier's stage. -/
theorem run_prediction_posture_noninterference
    (X_columns : List String) (predict : (String → Option ℚ) → Int)
    (hrv : ℚ) (emg_level p1 p2 : String)
    (hstage : (run_prediction X_columns predict hrv emg_level p1).1 =
      (run_prediction X_columns predict hrv emg_level p2).1) :
    (run_prediction X_columns predict hrv emg_level p1).2 =
      (run_prediction X_columns predict hrv emg_level p2).2 :=
  congrArg (fun st : Int => calculate_rpi st hrv emg_level) hstage

theorem run_prediction_posture_noninterference_witness :
    ((run_prediction cols0 predict0 80 "normal" "aligned").1 =
      (run_prediction cols0 predict0 80 "normal" "slouched").1) ∧
    ((run_prediction cols0 predict0 80 "normal" "aligned").2 =
      (run_prediction cols0 predict0 80 "normal" "slouched").2) :=
  ⟨by decide,
    run_prediction_posture_noninterference cols0 predict0 80 "normal" "aligned" "slouched"
      (by decide)⟩

/-- C6: on a valid initial sample, when the assessed stage is 0 and the rpi
is below 35 the session takes the healthy terminal outcome: the state only
records the assessment and in particular feedback is not activated; in
every other case the assessment is stored as the before-metrics and the
state enters the feedback phase. -/
theorem initial_branch_spec (X_columns : List String)
    (predict : (String → Option ℚ) → Int) (s : AppState) (hrv : ℚ)
    (emg_level posture : String) (stage rpi : Int)
    (hf : s.feedback_active = false) (hsu : s.show_updated_input = false)
    (hq : check_signal_quality hrv emg_level posture = "✅ Good")
    (hp : run_prediction X_columns predict hrv emg_level posture = (stage, rpi)) :
    ((stage = 0 ∧ rpi < 35) →
      step X_columns predict s (Event.submitInitial hrv emg_level posture) =
        { s with stage_before := some stage, rpi_before := some rpi }) ∧
    (¬(stage = 0 ∧ rpi < 35) →
      step X_columns predict s (Event.submitInitial hrv emg_level posture) =
        { s with stage_before := some stage
                 rpi_before := some rpi
                 feedback_active := true }) := by
  simp only [step, hp]
  rw [if_pos ⟨hf, hsu⟩, if_pos hq]
  constructor
  · intro hh
    rw [if_pos hh]
  · intro hh
    rw [if_neg hh]

theorem initial_branch_spec_witness :
    (check_signal_quality 80 "overactive" "aligned" = "✅ Good" ∧
      ¬((2 : Int) = 0 ∧ (71 : Int) < 35)) ∧
    step cols0 predict0 initState (Event.submitInitial 80 "overactive" "aligned") =
      { initState with stage_before := some 2
                       rpi_before := some 71
                       feedback_active := true } :=
  ⟨⟨by decide, by decide⟩,
    (initial_branch_spec cols0 predict0 initState 80 "overactive" "aligned" 2 71
      rfl rfl (by decide) (by decide)).2 (by decide)⟩

/-- C8: when the updated-sample comparison is classified Improved, the
before-metrics and the loop counter are unchanged, exactly one Improved
entry is appended to the log, the improving flag is set, and nothing else
changes — in particular the feedback phase is not re-entered and the
session keeps its flags otherwise as they were. -/
theorem improved_branch_frame (X_columns : List String)
    (predict : (String → Option ℚ) → Int) (s : AppState) (hrv : ℚ)
    (emg_level posture : String) (stage rpi : Int)
    (hsu : s.show_updated_input = true)
    (hp : run_prediction X_columns predict hrv emg_level posture = (stage, rpi))
    (himp : rpi < s.rpi_before.getD 0 ∨ stage < s.stage_before.getD 0) :
    step X_columns predict s (Event.submitUpdated hrv emg_level posture) =
      { s with improving := true
               log := s.log ++
                 [⟨s.loop, s.stage_before.getD 0, s.rpi_before.getD 0, stage, rpi,
                   "Improved ✅"⟩] } := by
  simp only [step, hp]
  rw [if_pos hsu, if_pos himp]
  have hcl : classify_status (s.stage_before.getD 0) (s.rpi_before.getD 0) stage rpi =
      "Improved ✅" := by
    simp only [classify_status]
    rw [if_pos himp]
  rw [hcl, if_neg (by simp)]

theorem improved_branch_frame_witness :
    ((run cols0 predict0 traceToUpdated).show_updated_input = true ∧
      ((66 : Int) < (run cols0 predict0 traceToUpdated).rpi_before.getD 0 ∨
        (2 : Int) < (run cols0 predict0 traceToUpdated).stage_before.getD 0)) ∧
    step cols0 predict0 (run cols0 predict0 traceToUpdated)
        (Event.submitUpdated 80 "normal" "aligned") =
      { run cols0 predict0 traceToUpdated with
          improving := true
          log := (run cols0 predict0 traceToUpdated).log ++
            [⟨(run cols0 predict0 traceToUpdated).loop,
              (run cols0 predict0 traceToUpdated).stage_before.getD 0,
              (run cols0 predict0 traceToUpdated).rpi_before.getD 0, 2, 66,
              "Improved ✅"⟩] } :=
  ⟨⟨by decide, by decide⟩,
    improved_branch_frame cols0 predict0 (run cols0 predict0 traceToUpdated) 80 "normal"
      "aligned" 2 66 (by decide) (by decide) (by decide)⟩

/-- C2 is violated by the source: the updated-signal handler (src/app.py
line 132) calls `run_prediction` directly and never calls
`check_signal_quality`, while the initial handler does. At the concrete
reachable state after a valid unhealthy initial sample and the feedback
timer, submitting an updated sample with hrv 150 (rejected by the
validator as a poor HRV signal) still computes an assessment, appends a
log entry and mutates the session state. -/
theorem updated_input_skips_validation_bug :
    check_signal_quality 150 "normal" "aligned" = "❌ Poor HRV Signal" ∧
    (run cols0 predict0 traceToUpdated).show_updated_input = true ∧
    (run cols0 predict0 traceToUpdated).log = [] ∧
    (step cols0 predict0 (run cols0 predict0 traceToUpdated)
        (Event.submitUpdated 150 "normal" "aligned")).log.length = 1 ∧
    (step cols0 predict0 (run cols0 predict0 traceToUpdated)
        (Event.submitUpdated 150 "normal" "aligned")).improving = true := by
  refine ⟨by decide, by decide, by decide, by decide, by decide⟩

/-- C5 is violated by the source: the Improved branch (src/app.py lines
151-154) never clears `show_updated_input`, so the analyze button stays
live; a later worsened comparison appends a Worsened entry but, because
`improving` is already set, the guarded update block (lines 162-168) is
skipped and the loop counter does not increment. The concrete trace ends
with a Worsened transition that leaves `loop` at 1. -/
theorem loop_frozen_after_improving_bug :
    (run cols0 predict0 traceImprovedThenWorse).log.map LogEntry.status =
      ["Improved ✅", "Worsened ❌"] ∧
    (run cols0 predict0 (traceToUpdated ++
      [Event.submitUpdated 80 "normal" "aligned"])).loop = 1 ∧
    (run cols0 predict0 traceImprovedThenWorse).loop = 1 := by
  refine ⟨by decide, by decide, by decide⟩

/-- C9 is violated by the source, through the same slip as the loop
invariant: after an Improved entry the loop counter is frozen while the
updated-input section stays live, so the next appended entry reuses the
same Loop value. On the concrete trace the log's Loop column is [1, 1]
instead of the gap-free sequence [1, 2]. -/
theorem log_loop_column_repeats_bug :
    (run cols0 predict0 traceImprovedThenWorse).log.map LogEntry.loop = [1, 1] ∧
    ([1, 1] : List Nat) ≠ [1, 2] := by
  refine ⟨by decide, by decide⟩
